import Mathlib

/-!
Verification development for the `dfhack-mcp` repository (`src/main.py`).

The repository is a thin HTTP facade over the external `dfhack_client_python`
RPC client.  Each route handler issues one or two RPC calls and reshapes the
returned protobuf record into a JSON dictionary.  We embed:

* the protobuf response records the handlers read (only the fields the
  handlers touch, with protobuf `int32`/`uint32` fields as `Int`, strings as
  `String`, booleans as `Bool`);
* a JSON value type for the dictionaries the handlers return;
* each route handler of `src/main.py` as a pure function from its RPC
  response(s) to a JSON value; the POST route `list_units` additionally takes
  the parsed request body and the RPC call as a function, and returns
  `Except HandlerError Json` (an `Except.error` models an uncaught Python
  exception escaping the handler).
-/

/-- JSON values, as produced by the handlers' Python dictionaries and lists. -/
inductive Json where
  | str : String → Json
  | int : Int → Json
  | bool : Bool → Json
  | arr : List Json → Json
  | obj : List (String × Json) → Json

/-- First binding of `key` in an association list of JSON object fields
(Python dictionaries have unique keys, so first-match agrees with the dict). -/
def findField (key : String) : List (String × Json) → Option Json
  | [] => none
  | (k, v) :: rest => if k = key then some v else findField key rest

/-- Field lookup `j[key]`: `some` value on an object that has the key,
`none` otherwise (a `none` corresponds to a Python `KeyError`/`TypeError`). -/
def Json.getField : Json → String → Option Json
  | .obj fields, key => findField key fields
  | _, _ => none

/-- Key list of a JSON object, in order. -/
def Json.keys : Json → Option (List String)
  | .obj fields => some (fields.map Prod.fst)
  | _ => none

/-- Protobuf `StringMessage`: the response record of `GetVersion` and
`GetDFVersion`, carrying a single string `value`. -/
structure StringMessage where
  value : String

/-- Protobuf `NameInfo` record (the fields read by `src/main.py`). -/
structure NameInfo where
  language_id : Int
  first_name : String
  last_name : String
  nickname : String
  english_name : String

/-- Protobuf enum `GetWorldInfoOut.Mode`. -/
inductive Mode where
  | MODE_DWARF
  | MODE_ADVENTURE
  | MODE_LEGENDS
deriving DecidableEq

/-- Protobuf enum-value-to-name lookup, `GetWorldInfoOut.Mode.Name`. -/
def Mode.Name : Mode → String
  | .MODE_DWARF => "MODE_DWARF"
  | .MODE_ADVENTURE => "MODE_ADVENTURE"
  | .MODE_LEGENDS => "MODE_LEGENDS"

/-- Protobuf `GetWorldInfoOut`: the response record of `GetWorldInfo`
(the fields read by `src/main.py`). -/
structure GetWorldInfoOut where
  mode : Mode
  world_name : NameInfo
  civ_id : Int
  site_id : Int
  group_id : Int
  race_id : Int

/-- Protobuf `GetViewInfoOut`: the response record of `GetViewInfo`. -/
structure GetViewInfoOut where
  view_pos_x : Int
  view_pos_y : Int
  view_pos_z : Int
  view_size_x : Int
  view_size_y : Int
  cursor_pos_x : Int
  cursor_pos_y : Int
  cursor_pos_z : Int
  follow_unit_id : Int
  follow_item_id : Int

/-- Protobuf appearance sub-record of a creature (the one field read). -/
structure UnitAppearance where
  physical_description : String

/-- One element of `GetUnitList`'s `creature_list` (the fields read by
`src/main.py`). -/
structure UnitSummary where
  id : Int
  pos_x : Int
  pos_y : Int
  pos_z : Int
  is_soldier : Bool
  name : String
  appearance : UnitAppearance
  profession_id : Int
  age : Int

/-- Response record of `GetUnitList`. -/
structure GetUnitListOut where
  creature_list : List UnitSummary

/-- Protobuf `ListUnitsIn`: the request record of `ListUnits`, with the
repeated `id_list` field. -/
structure ListUnitsIn where
  id_list : List Int

/-- One element of `ListUnits`' response `value` list (the fields read by
`src/main.py`). -/
structure UnitInfo where
  unit_id : Int
  name : NameInfo
  flags1 : Int
  flags2 : Int
  flags3 : Int
  race : Int
  caste : Int
  gender : Int
  civ_id : Int
  histfig_id : Int
  pos_x : Int
  pos_y : Int
  pos_z : Int
  profession : Int

/-- Response record of `ListUnits`. -/
structure ListUnitsOut where
  value : List UnitInfo

/-- Handler for `GET /get-versions` (`src/main.py` lines 25-33): combines the
`GetVersion` and `GetDFVersion` responses into a two-key dictionary. -/
def get_versions (dfhack_version : StringMessage) (dwarf_fortress_version : StringMessage) : Json :=
  Json.obj [
    ("dfhackVersion", Json.str dfhack_version.value),
    ("dwarfFortressVersion", Json.str dwarf_fortress_version.value)
  ]

/-- The `details` dictionary of `get_world_info` (`src/main.py` lines 39-46):
starts empty and is filled with the four ids exactly when the mode is
`MODE_DWARF`. -/
def worldDetails (world_info : GetWorldInfoOut) : Json :=
  match world_info.mode with
  | .MODE_DWARF => Json.obj [
      ("civId", Json.int world_info.civ_id),
      ("siteId", Json.int world_info.site_id),
      ("groupId", Json.int world_info.group_id),
      ("raceId", Json.int world_info.race_id)
    ]
  | _ => Json.obj []

/-- Handler for `GET /get-world-info` (`src/main.py` lines 35-58). -/
def get_world_info (world_info : GetWorldInfoOut) : Json :=
  Json.obj [
    ("worldName", Json.obj [
      ("languageId", Json.int world_info.world_name.language_id),
      ("firstName", Json.str world_info.world_name.first_name),
      ("lastName", Json.str world_info.world_name.last_name),
      ("nickname", Json.str world_info.world_name.nickname),
      ("englishName", Json.str world_info.world_name.english_name)
    ]),
    ("mode", Json.str (Mode.Name world_info.mode)),
    ("details", worldDetails world_info)
  ]

/-- Handler for `GET /get-view-info` (`src/main.py` lines 60-75): a flat
ten-field passthrough of the `GetViewInfo` response. -/
def get_view_info (view_info : GetViewInfoOut) : Json :=
  Json.obj [
    ("view_pos_x", Json.int view_info.view_pos_x),
    ("view_pos_y", Json.int view_info.view_pos_y),
    ("view_pos_z", Json.int view_info.view_pos_z),
    ("view_size_x", Json.int view_info.view_size_x),
    ("view_size_y", Json.int view_info.view_size_y),
    ("cursor_pos_x", Json.int view_info.cursor_pos_x),
    ("cursor_pos_y", Json.int view_info.cursor_pos_y),
    ("cursor_pos_z", Json.int view_info.cursor_pos_z),
    ("follow_unit_id", Json.int view_info.follow_unit_id),
    ("follow_item_id", Json.int view_info.follow_item_id)
  ]

/-- Per-element projection of the `get_unit_list` loop body
(`src/main.py` lines 115-128). -/
def projUnitSummary (unit : UnitSummary) : Json :=
  Json.obj [
    ("id", Json.int unit.id),
    ("position", Json.obj [
      ("x", Json.int unit.pos_x),
      ("y", Json.int unit.pos_y),
      ("z", Json.int unit.pos_z)
    ]),
    ("isSoldier", Json.bool unit.is_soldier),
    ("name", Json.str unit.name),
    ("physicalDescription", Json.str unit.appearance.physical_description),
    ("professionId", Json.int unit.profession_id),
    ("age", Json.int unit.age)
  ]

/-- Handler for `GET /get-unit-list` (`src/main.py` lines 110-129):
`unitCount` is computed as `len(units.creature_list)` in the source. -/
def get_unit_list (units : GetUnitListOut) : Json :=
  Json.obj [
    ("unitCount", Json.int (Int.ofNat units.creature_list.length)),
    ("units", Json.arr (units.creature_list.map projUnitSummary))
  ]

/-- Python exceptions that can escape the `list_units` handler body:
`keyError` models `KeyError` from `body["unit_ids"]` on a body without that
key (or non-dictionary bodies, where Python raises `TypeError` instead), and
`typeError` models the `TypeError` raised by `ListUnitsIn(id_list = ...)`
when the value is not a list of integers. -/
inductive HandlerError where
  | keyError
  | typeError

/-- Decode a list of JSON values as Python integers for the protobuf
repeated `int32` field `id_list`; any non-integer element raises. -/
def decodeInts : List Json → Option (List Int)
  | [] => some []
  | Json.int n :: rest => (decodeInts rest).map (fun t => n :: t)
  | _ :: _ => none

/-- Decode a JSON value as a list of integers; a non-list value raises. -/
def decodeIntList : Json → Option (List Int)
  | .arr xs => decodeInts xs
  | _ => none

/-- The input extraction of `list_units` (`src/main.py` line 80 together with
the `ListUnitsIn` construction on line 82): read `body["unit_ids"]` (KeyError
if absent) and build the repeated integer field (TypeError if malformed). -/
def extract_unit_ids (body : Json) : Except HandlerError (List Int) :=
  match body.getField "unit_ids" with
  | none => Except.error HandlerError.keyError
  | some j =>
    match decodeIntList j with
    | none => Except.error HandlerError.typeError
    | some ids => Except.ok ids

/-- Per-element projection of the `list_units` loop body
(`src/main.py` lines 84-107); note the source projects only four of the
name sub-fields (no nickname). -/
def projUnitDetail (unit : UnitInfo) : Json :=
  Json.obj [
    ("unitId", Json.int unit.unit_id),
    ("name", Json.obj [
      ("firstName", Json.str unit.name.first_name),
      ("languageId", Json.int unit.name.language_id),
      ("lastName", Json.str unit.name.last_name),
      ("englishName", Json.str unit.name.english_name)
    ]),
    ("flags1", Json.int unit.flags1),
    ("flags2", Json.int unit.flags2),
    ("flags3", Json.int unit.flags3),
    ("race", Json.int unit.race),
    ("caste", Json.int unit.caste),
    ("gender", Json.int unit.gender),
    ("civId", Json.int unit.civ_id),
    ("histfigId", Json.int unit.histfig_id),
    ("position", Json.obj [
      ("x", Json.int unit.pos_x),
      ("y", Json.int unit.pos_y),
      ("z", Json.int unit.pos_z)
    ]),
    ("profession", Json.int unit.profession)
  ]

/-- Handler for `POST /list-units` (`src/main.py` lines 77-108): extract
`unit_ids` from the body, call the `ListUnits` RPC with exactly that list as
`id_list`, and project every element of the response's `value` list.  The
RPC call is passed in as a function `rpc`; an escaping Python exception is an
`Except.error`.  The `print` on line 81 writes to stdout only and has no
effect on the response. -/
def list_units (body : Json) (rpc : ListUnitsIn → ListUnitsOut) : Except HandlerError Json :=
  match extract_unit_ids body with
  | Except.error e => Except.error e
  | Except.ok unit_ids =>
    Except.ok (Json.obj [
      ("units", Json.arr ((rpc (ListUnitsIn.mk unit_ids)).value.map projUnitDetail))
    ])

/-- HTTP status of a handler outcome.  Models the hosting framework
(FastAPI/Starlette): a handler that returns normally yields a 200 response;
an exception that escapes the handler body is caught by the framework's
server-error middleware and converted to a 500 Internal Server Error
response — the serving process itself keeps running. -/
def responseStatus : Except HandlerError Json → Nat
  | Except.ok _ => 200
  | Except.error _ => 500

/-- The four GET routes of `src/main.py`. -/
inductive GetRoute where
  | versions
  | worldInfo
  | viewInfo
  | unitList

/-- Server state visible to the handlers: the single RPC connection, given by
the response each fixed RPC call returns in the current simulation state.
`src/main.py` has no other module-level or per-app mutable data that any
handler reads or writes. -/
structure ServerState where
  versionResp : StringMessage
  dfVersionResp : StringMessage
  worldInfoResp : GetWorldInfoOut
  viewInfoResp : GetViewInfoOut
  unitListResp : GetUnitListOut
  listUnitsResp : ListUnitsIn → ListUnitsOut

/-- Dispatch a GET route against the server state, returning the response
body and the state afterwards.  The Python handler bodies perform no
assignment to any shared state, so the returned state is the input state:
this is the translation of the handlers' (absent) side effects. -/
def handleGet : GetRoute → ServerState → Json × ServerState
  | .versions, s => (get_versions s.versionResp s.dfVersionResp, s)
  | .worldInfo, s => (get_world_info s.worldInfoResp, s)
  | .viewInfo, s => (get_view_info s.viewInfoResp, s)
  | .unitList, s => (get_unit_list s.unitListResp, s)

/-- C3: for every `GetWorldInfo` response, the `details` field of the
`get-world-info` output holds exactly the four keys `civId`, `siteId`,
`groupId`, `raceId` (taken from `civ_id`, `site_id`, `group_id`, `race_id`)
when the mode is dwarf-mode (`MODE_DWARF`), and is the empty mapping for
every other mode. -/
theorem get_world_info_details_spec (w : GetWorldInfoOut) :
    (get_world_info w).getField "details" =
      some (if w.mode = Mode.MODE_DWARF then
          Json.obj [
            ("civId", Json.int w.civ_id),
            ("siteId", Json.int w.site_id),
            ("groupId", Json.int w.group_id),
            ("raceId", Json.int w.race_id)]
        else Json.obj []) := by
  rcases w with ⟨mode, wn, a, b, c, d⟩
  cases mode <;> rfl

/-- C4: for every `GetUnitList` response, the `unitCount` value of the
`get-unit-list` output equals the length of its `units` array. -/
theorem get_unit_list_count_matches_units (r : GetUnitListOut) :
    ∃ n us, (get_unit_list r).getField "unitCount" = some (Json.int n) ∧
      (get_unit_list r).getField "units" = some (Json.arr us) ∧
      n = Int.ofNat us.length := by
  refine ⟨Int.ofNat r.creature_list.length, r.creature_list.map projUnitSummary, rfl, rfl, ?_⟩
  simp

/-- C5: whenever `GetVersion` and `GetDFVersion` return non-empty strings,
the `get-versions` output is exactly the two-key mapping with `dfhackVersion`
the `GetVersion` value and `dwarfFortressVersion` the `GetDFVersion` value,
both non-empty. -/
theorem get_versions_shape (v dfv : StringMessage)
    (h1 : v.value ≠ "") (h2 : dfv.value ≠ "") :
    get_versions v dfv = Json.obj [
        ("dfhackVersion", Json.str v.value),
        ("dwarfFortressVersion", Json.str dfv.value)] ∧
      v.value ≠ "" ∧ dfv.value ≠ "" :=
  ⟨rfl, h1, h2⟩

/-- Witness for C5 at the spec's end-to-end scenario: RPC version "0.8" and
simulation version "50.11". -/
theorem get_versions_shape_witness :
    (StringMessage.mk "0.8").value ≠ "" ∧ (StringMessage.mk "50.11").value ≠ "" ∧
    get_versions (StringMessage.mk "0.8") (StringMessage.mk "50.11") = Json.obj [
      ("dfhackVersion", Json.str "0.8"),
      ("dwarfFortressVersion", Json.str "50.11")] :=
  ⟨by decide, by decide,
    (get_versions_shape (StringMessage.mk "0.8") (StringMessage.mk "50.11")
      (by decide) (by decide)).1⟩

/-- C6: for every `GetViewInfo` response, the `get-view-info` output is a
flat mapping of exactly the ten fields, each equal to the corresponding
field of the RPC response, unmodified. -/
theorem get_view_info_flat_fields (v : GetViewInfoOut) :
    (get_view_info v).keys = some ["view_pos_x", "view_pos_y", "view_pos_z",
        "view_size_x", "view_size_y", "cursor_pos_x", "cursor_pos_y",
        "cursor_pos_z", "follow_unit_id", "follow_item_id"] ∧
      (get_view_info v).getField "view_pos_x" = some (Json.int v.view_pos_x) ∧
      (get_view_info v).getField "view_pos_y" = some (Json.int v.view_pos_y) ∧
      (get_view_info v).getField "view_pos_z" = some (Json.int v.view_pos_z) ∧
      (get_view_info v).getField "view_size_x" = some (Json.int v.view_size_x) ∧
      (get_view_info v).getField "view_size_y" = some (Json.int v.view_size_y) ∧
      (get_view_info v).getField "cursor_pos_x" = some (Json.int v.cursor_pos_x) ∧
      (get_view_info v).getField "cursor_pos_y" = some (Json.int v.cursor_pos_y) ∧
      (get_view_info v).getField "cursor_pos_z" = some (Json.int v.cursor_pos_z) ∧
      (get_view_info v).getField "follow_unit_id" = some (Json.int v.follow_unit_id) ∧
      (get_view_info v).getField "follow_item_id" = some (Json.int v.follow_item_id) :=
  ⟨rfl, rfl, rfl, rfl, rfl, rfl, rfl, rfl, rfl, rfl, rfl⟩

/-- C7: every GET route is a pure projection of the server state: handling
a request leaves the state unchanged, and handling the same route again on
the resulting state returns an identical output. -/
theorem get_routes_idempotent (route : GetRoute) (s : ServerState) :
    (handleGet route s).2 = s ∧
    (handleGet route ((handleGet route s).2)).1 = (handleGet route s).1 := by
  cases route <;> exact ⟨rfl, rfl⟩

/-- A concrete `ListUnits` RPC behaviour used by concrete instantiations:
always answers with an empty `value` list. -/
def constRpc : ListUnitsIn → ListUnitsOut := fun _ => ListUnitsOut.mk []

/-- Mapping a list of integers into JSON integers decodes back to the same
list. -/
theorem decodeInts_map_int (ids : List Int) :
    decodeInts (ids.map Json.int) = some ids := by
  induction ids with
  | nil => rfl
  | cons a t ih => simp [decodeInts, ih]

/-- C1 (amended): for every POST body that is a JSON object without the
`unit_ids` key, the `list-units` handler raises (a `KeyError` from
`body["unit_ids"]`), which the framework converts to a 500 server-error
response — the server answers, it does not crash, but the status is a
server error, not a client error. -/
theorem list_units_missing_field_server_error (fields : List (String × Json))
    (rpc : ListUnitsIn → ListUnitsOut)
    (h : (Json.obj fields).getField "unit_ids" = none) :
    responseStatus (list_units (Json.obj fields) rpc) = 500 := by
  simp [list_units, extract_unit_ids, h, responseStatus]

/-- Witness for C1 (amended) on the empty JSON object body. -/
theorem list_units_missing_field_server_error_witness :
    (Json.obj []).getField "unit_ids" = none ∧
    responseStatus (list_units (Json.obj []) constRpc) = 500 :=
  ⟨rfl, list_units_missing_field_server_error [] constRpc rfl⟩

/-- Counterexample to C1 as stated: on the body `{}` (no `unit_ids` key) the
route's status is 500, which is not a client-error (4xx) status. -/
theorem list_units_missing_field_counterexample :
    responseStatus (list_units (Json.obj []) constRpc) = 500 ∧
    ¬(400 ≤ responseStatus (list_units (Json.obj []) constRpc) ∧
      responseStatus (list_units (Json.obj []) constRpc) < 500) := by
  decide

/-- The request body of the spec's `list-units` scenario:
`{"unit_ids": [1, 2, 3]}`. -/
def body123 : Json :=
  Json.obj [("unit_ids", Json.arr [Json.int 1, Json.int 2, Json.int 3])]

/-- A `ListUnits` response element whose `unit_id` is 99 (all other fields
zero or empty). -/
def unit99 : UnitInfo :=
  ⟨99, ⟨0, "", "", "", ""⟩, 0, 0, 0, 0, 0, 0, 0, 0, 0, 0, 0, 0⟩

/-- A `ListUnits` response carrying five units, all with `unit_id` 99. -/
def resp99 : ListUnitsOut :=
  ListUnitsOut.mk [unit99, unit99, unit99, unit99, unit99]

/-- Counterexample to C2 as stated: with body `{"unit_ids": [1, 2, 3]}` and
an RPC response of five units all with `unit_id` 99, the output `units`
array has length 5 (not between 0 and 3) and its elements' `unitId` is 99,
which is none of the requested ids — the route performs no check of the
response against the request. -/
theorem list_units_resolution_counterexample :
    list_units body123 (fun _ => resp99) =
      Except.ok (Json.obj [("units", Json.arr (resp99.value.map projUnitDetail))]) ∧
    (resp99.value.map projUnitDetail).length = 5 ∧ ¬(5 ≤ 3) ∧
    (projUnitDetail unit99).getField "unitId" = some (Json.int 99) ∧
    ¬((99 : Int) = 1 ∨ (99 : Int) = 2 ∨ (99 : Int) = 3) := by
  refine ⟨rfl, rfl, by decide, rfl, by decide⟩

/-- C2 (amended): with body `{"unit_ids": [1, 2, 3]}`, for every `ListUnits`
RPC response the output `units` array is the element-wise projection of the
response's `value` list — same length, and each element's `unitId` is the
corresponding response element's `unit_id`.  The route never compares the
response against the requested ids, so the requested count bounds the output
only if the simulation itself answers with a subset of the requested ids. -/
theorem list_units_projects_rpc_value (r : ListUnitsOut) :
    list_units body123 (fun _ => r) =
      Except.ok (Json.obj [("units", Json.arr (r.value.map projUnitDetail))]) ∧
    (r.value.map projUnitDetail).length = r.value.length ∧
    ∀ (u : UnitInfo), (projUnitDetail u).getField "unitId" = some (Json.int u.unit_id) := by
  have h : extract_unit_ids body123 = Except.ok [1, 2, 3] := rfl
  refine ⟨by simp [list_units, h], by simp, fun u => rfl⟩

/-- C8: for every body that is a JSON object whose `unit_ids` key holds a
list of integers, `list_units` passes that list verbatim — same elements,
same order, duplicates preserved, no validation — as the `id_list` of the
`ListUnits` RPC request. -/
theorem list_units_forwards_ids_verbatim (fields : List (String × Json))
    (ids : List Int) (rpc : ListUnitsIn → ListUnitsOut)
    (h : (Json.obj fields).getField "unit_ids" = some (Json.arr (ids.map Json.int))) :
    extract_unit_ids (Json.obj fields) = Except.ok ids ∧
    list_units (Json.obj fields) rpc =
      Except.ok (Json.obj [("units",
        Json.arr ((rpc (ListUnitsIn.mk ids)).value.map projUnitDetail))]) := by
  have he : extract_unit_ids (Json.obj fields) = Except.ok ids := by
    simp [extract_unit_ids, h, decodeIntList, decodeInts_map_int]
  exact ⟨he, by simp [list_units, he]⟩

/-- Witness for C8 on a body with a duplicated id, `[3, 1, 3]`. -/
theorem list_units_forwards_ids_verbatim_witness :
    (Json.obj [("unit_ids", Json.arr [Json.int 3, Json.int 1, Json.int 3])]).getField
      "unit_ids" = some (Json.arr ([3, 1, 3].map Json.int)) ∧
    extract_unit_ids (Json.obj [("unit_ids", Json.arr [Json.int 3, Json.int 1, Json.int 3])]) =
      Except.ok [3, 1, 3] :=
  ⟨rfl, (list_units_forwards_ids_verbatim
    [("unit_ids", Json.arr [Json.int 3, Json.int 1, Json.int 3])] [3, 1, 3] constRpc rfl).1⟩

/-- C9: for every `ListUnits` RPC response, the output `units` array has
exactly one element per element of the response's `value` list, in the same
order, each the fixed projection `projUnitDetail` of that element; given the
response, the output is the same whatever body and ids were requested, and
nothing is checked against the requested ids. -/
theorem list_units_output_from_response (body : Json) (ids : List Int)
    (r : ListUnitsOut) (h : extract_unit_ids body = Except.ok ids) :
    list_units body (fun _ => r) =
      Except.ok (Json.obj [("units", Json.arr (r.value.map projUnitDetail))]) ∧
    (r.value.map projUnitDetail).length = r.value.length := by
  refine ⟨by simp [list_units, h], by simp⟩

/-- Witness for C9 on the body `{"unit_ids": [5]}` and the empty response. -/
theorem list_units_output_from_response_witness :
    extract_unit_ids (Json.obj [("unit_ids", Json.arr [Json.int 5])]) = Except.ok [5] ∧
    list_units (Json.obj [("unit_ids", Json.arr [Json.int 5])]) (fun _ => ListUnitsOut.mk []) =
      Except.ok (Json.obj [("units", Json.arr [])]) :=
  ⟨rfl, (list_units_output_from_response (Json.obj [("unit_ids", Json.arr [Json.int 5])])
    [5] (ListUnitsOut.mk []) rfl).1⟩

/-- C10: two bodies that agree on their `unit_ids` field produce identical
`list-units` outcomes against the same RPC behaviour — no other field of the
request body influences the result. -/
theorem list_units_ignores_other_fields (b1 b2 : Json)
    (rpc : ListUnitsIn → ListUnitsOut)
    (h : b1.getField "unit_ids" = b2.getField "unit_ids") :
    list_units b1 rpc = list_units b2 rpc := by
  unfold list_units extract_unit_ids
  rw [h]

/-- Witness for C10: a body with only `unit_ids` and a body with an extra
unrelated field give the same outcome. -/
theorem list_units_ignores_other_fields_witness :
    (Json.obj [("unit_ids", Json.arr [Json.int 1])]).getField "unit_ids" =
      (Json.obj [("extra", Json.str "x"), ("unit_ids", Json.arr [Json.int 1])]).getField "unit_ids" ∧
    list_units (Json.obj [("unit_ids", Json.arr [Json.int 1])]) constRpc =
      list_units (Json.obj [("extra", Json.str "x"), ("unit_ids", Json.arr [Json.int 1])]) constRpc :=
  ⟨rfl, list_units_ignores_other_fields
    (Json.obj [("unit_ids", Json.arr [Json.int 1])])
    (Json.obj [("extra", Json.str "x"), ("unit_ids", Json.arr [Json.int 1])]) constRpc rfl⟩
